import Mathlib

/-
Verification of the voice capture / transcribe / synthesize / playback /
re-arm core of the Solace client.

The embedded code lives in two files:
- frontend/src/components/SessionActions.js (the VoiceControls component:
  format negotiation, recording state machine, 60-second cap timer,
  processRecording, scheduleAutoListening, handleVoiceRecord);
- the main application component (synthesizeAndPlayVoice and
  playAudioFromBase64).

Stateful React code is embedded as explicit state records with a step
function over event traces; async/Promise code is embedded by its
resolution outcome.  Handlers invoked from the current render (button
clicks) read current state; the auto-listen setTimeout callback is a
render closure: its captured isRecording and isProcessing are the values
of the render in which the processed recording was started — necessarily
false — and its captured autoMode is the value that scheduled it, so the
embedded fire step passes the guard and takes the start branch
unconditionally.  Refs (the chunk list, the recorder, the timeout handle)
and state setters act on the real, current values.
-/

namespace Solace

/-- Apostrophe character (code point 39), used to assemble the user-facing
sentences of the source verbatim. -/
def apos : String := String.singleton (Char.ofNat 39)

/-- Candidate encoding: uncompressed WAV. -/
def fmtWav : String := "audio/wav"

/-- Candidate encoding: Opus in a WebM container. -/
def fmtWebmOpus : String := "audio/webm;codecs=opus"

/-- Candidate encoding: bare WebM. -/
def fmtWebm : String := "audio/webm"

/-- Candidate encoding: MP3. -/
def fmtMp3 : String := "audio/mp3"

/-- Candidate encoding: Opus in an Ogg container. -/
def fmtOggOpus : String := "audio/ogg;codecs=opus"

/-- Candidate encoding: bare Ogg. -/
def fmtOgg : String := "audio/ogg"

/-- The fixed candidate list of startRecording (SessionActions.js lines
491-498), in source order. -/
def formats : List String := [fmtWav, fmtWebmOpus, fmtWebm, fmtMp3, fmtOggOpus, fmtOgg]

/-- Format negotiation of startRecording (lines 500-506): the loop takes the
first candidate the runtime reports as supported.  `supported` embeds
MediaRecorder.isTypeSupported for the runtime at hand. -/
def negotiate (supported : String → Bool) : Option String := formats.find? supported

/-- Outcome of the transcription network call made by processRecording:
the fetch resolves with an OK response carrying a transcription string,
resolves with a non-OK status (which the code turns into a thrown error),
or the fetch itself throws. -/
inductive SvcResp where
  | ok (transcription : String)
  | httpErr (status : Nat) (body : String)
  | netThrow (msg : String)
deriving DecidableEq, Repr

/-- Observable result of one processRecording run: whether the
transcription endpoint was called, what (if anything) was forwarded to
onVoiceMessage, whether that forward came from a fallback branch, the
voiceError banner, the isProcessing flag after the run, whether
scheduleAutoListening was invoked, and the mime type the payload blob was
tagged with. -/
structure ProcResult where
  svcCalled : Bool
  forwarded : Option String
  isFallback : Bool
  voiceError : Option String
  processingAfter : Bool
  scheduled : Bool
  taggedAs : Option String
deriving DecidableEq, Repr

/-- Error banner of the empty-chunks branch (line 585). -/
def noAudioError : String := "No audio recorded. Please try again."

/-- The clarification sentence forwarded when the service returns no usable
text (line 657). -/
def listeningFallback : String :=
  "I" ++ apos ++ "m listening but couldn" ++ apos ++
  "t hear you clearly. Could you please repeat that?"

/-- The fallback sentence forwarded by the generic catch path (line 668). -/
def hearingTroubleFallback : String :=
  "I" ++ apos ++ "m having trouble hearing you. Could you please try again?"

/-- Error banner of the no-speech branch (line 661). -/
def noSpeechError : String := "No speech detected. Using fallback message to continue conversation."

/-- Message of the error thrown when the assembled blob is under 100 bytes
(line 623). -/
def tooShortMsg : String := "Audio recording too short or empty"

/-- Error banner built by the catch block of processRecording (line 665). -/
def processErrorMsg (m : String) : String := "Failed to process voice: " ++ m

/-- Message of the error thrown on a non-OK transcription response
(line 643). -/
def transcribeFailMsg (status : Nat) (body : String) : String :=
  "Transcription failed: " ++ toString status ++ " - " ++ body

/-- Truthiness test of line 649, `transcription && transcription.trim()`:
the transcription is usable exactly when it is non-empty and does not trim
to the empty string, i.e. when it contains a non-whitespace character. -/
def usableTranscription (text : String) : Bool :=
  text.data.any (fun c => !c.isWhitespace)

/-- Mime type chosen for the upload blob by processRecording (lines
604-618): WAV if the runtime supports it, else MP3 if supported, else the
WebM fallback.  Note this is a second probe, independent of the format the
recorder was negotiated with in startRecording. -/
def blobTag (supported : String → Bool) : String :=
  if supported fmtWav then fmtWav
  else if supported fmtMp3 then fmtMp3
  else fmtWebm

/-- processRecording (SessionActions.js lines 583-683).  `chunks` is the
list of collected chunk sizes in arrival order; the blob size is their
sum.  The function mirrors the source branch for branch: early return on
an empty chunk list; blob assembly and tagging; the under-100-byte throw;
the transcription call with its OK / non-OK / network-throw outcomes; the
no-speech fallback; the catch-path fallback; and the finally block
(isProcessing cleared, auto-listen scheduled when autoMode is on). -/
def processRecording (supported : String → Bool) (chunks : List Nat)
    (autoMode : Bool) (svc : SvcResp) : ProcResult :=
  if chunks = [] then
    { svcCalled := false, forwarded := none, isFallback := false,
      voiceError := some noAudioError, processingAfter := false,
      scheduled := autoMode, taggedAs := none }
  else
    let tag := blobTag supported
    if chunks.sum < 100 then
      { svcCalled := false, forwarded := some hearingTroubleFallback, isFallback := true,
        voiceError := some (processErrorMsg tooShortMsg), processingAfter := false,
        scheduled := autoMode, taggedAs := some tag }
    else
      match svc with
      | SvcResp.netThrow m =>
        { svcCalled := true, forwarded := some hearingTroubleFallback, isFallback := true,
          voiceError := some (processErrorMsg m), processingAfter := false,
          scheduled := autoMode, taggedAs := some tag }
      | SvcResp.httpErr st body =>
        { svcCalled := true, forwarded := some hearingTroubleFallback, isFallback := true,
          voiceError := some (processErrorMsg (transcribeFailMsg st body)), processingAfter := false,
          scheduled := autoMode, taggedAs := some tag }
      | SvcResp.ok text =>
        if usableTranscription text then
          { svcCalled := true, forwarded := some text, isFallback := false,
            voiceError := none, processingAfter := false,
            scheduled := autoMode, taggedAs := some tag }
        else
          { svcCalled := true, forwarded := some listeningFallback, isFallback := true,
            voiceError := some noSpeechError, processingAfter := false,
            scheduled := autoMode, taggedAs := some tag }

/-- Lifecycle of one MediaRecorder object: currently recording, stopped
after having recorded (its onstop handler fires, leading to
processRecording), or created but never started (startRecording threw on
start). -/
inductive RecStatus where
  | recording
  | stoppedDone
  | neverStarted
deriving DecidableEq, Repr

/-- Possible outcomes of one startRecording call (lines 479-558): success;
no live stream (line 480, returns false before touching the recorder); or
the MediaRecorder was created but starting it threw (catch at line 553). -/
inductive StartOutcome where
  | success
  | failNoStream
  | failStart
deriving DecidableEq, Repr

/-- Component state of VoiceControls relevant to the scheduler and the
recording state machine: the autoMode toggle, the isRecording and
isProcessing flags, the pending auto-listen timeout (absolute fire time),
every MediaRecorder ever created (head = mediaRecorderRef.current), the
error banner, and the times at which an automatic re-arm actually fired. -/
structure VCState where
  autoMode : Bool
  isRecording : Bool
  isProcessing : Bool
  pending : Option Nat
  recs : List RecStatus
  voiceError : Bool
  rearms : List Nat
deriving DecidableEq, Repr

/-- Initial component state: useState(false) for autoMode (line 342),
nothing recording, nothing pending. -/
def initState : VCState :=
  { autoMode := false, isRecording := false, isProcessing := false,
    pending := none, recs := [], voiceError := false, rearms := [] }

/-- Events acting on the component, each tagged with its absolute time:
the autoMode toggle click; a manual handleVoiceRecord toggle; the
60-second cap firing stopRecording; processRecording starting and
finishing (the finally block scheduling the auto-listen timeout); the
audio element finishing assistant playback (the source attaches no
scheduler hook to it); the pending auto-listen timeout firing; and the
component cleanup. -/
inductive Ev where
  | toggleAuto
  | manualToggle (o : StartOutcome)
  | capStop
  | procStart
  | procDone
  | playbackDone
  | fire (o : StartOutcome)
  | cleanup
deriving DecidableEq, Repr

/-- Number of MediaRecorder objects currently in the recording state. -/
def countRecording (l : List RecStatus) : Nat :=
  l.countP (fun r => decide (r = RecStatus.recording))

/-- stopRecording (lines 560-581): stops mediaRecorderRef.current (the
head) only when its state is recording. -/
def stopHead : List RecStatus → List RecStatus
  | [] => []
  | RecStatus.recording :: rest => RecStatus.stoppedDone :: rest
  | r :: rest => r :: rest

/-- The start branch of handleVoiceRecord (lines 714-722) combined with
startRecording: on success a new recorder is created and recording starts;
with no stream nothing is created and the error banner is set; when
starting throws, the recorder exists but never records, the banner is set,
and the isRecording flag is reset to false. -/
def startRec (s : VCState) (o : StartOutcome) : VCState :=
  match o with
  | StartOutcome.success =>
    { s with isRecording := true, voiceError := false,
             recs := RecStatus.recording :: s.recs }
  | StartOutcome.failNoStream =>
    { s with isRecording := false, voiceError := true }
  | StartOutcome.failStart =>
    { s with isRecording := false, voiceError := true,
             recs := RecStatus.neverStarted :: s.recs }

/-- handleVoiceRecord (lines 703-728): toggles — stop when recording,
otherwise attempt a start. -/
def handleVoiceRecord (s : VCState) (o : StartOutcome) : VCState :=
  if s.isRecording then
    { s with isRecording := false, recs := stopHead s.recs }
  else
    startRec s o

/-- cleanup (lines 365-385): stream tracks are stopped, which ends any
in-flight recording, and the pending auto-listen timeout is cleared. -/
def stopAll (l : List RecStatus) : List RecStatus :=
  l.map (fun r => if r = RecStatus.recording then RecStatus.stoppedDone else r)

/-- One event step of the component.  procDone embeds the finally block of
processRecording (lines 672-682): isProcessing is cleared and, when
autoMode is on, scheduleAutoListening (lines 686-701) replaces any pending
timeout with one due 3 seconds later (on the traces considered here
autoMode is not toggled between a capture's arming and its processing, so
the closure's captured autoMode coincides with the current value read
here).  fire embeds the setTimeout callback (lines 695-700): it runs only
while its timeout is the pending one (clearTimeout through the ref cancels
it otherwise).  Its guard reads the scheduling render's closure: autoMode
there was true (scheduling is conditioned on that same captured value),
and isRecording and isProcessing were captured before the processed
recording had started, hence false — so the guard always passes, and the
equally stale handleVoiceRecord, seeing isRecording = false, always takes
the start branch (startRec), even while a newer manual recording is live.
The re-arm is recorded in rearms.  playbackDone is a no-op: the source
wires no scheduler action to the audio ended event.  Manual toggling does
not clear the pending timeout (the source never clears it there). -/
def step (s : VCState) (p : Nat × Ev) : VCState :=
  match p.2 with
  | Ev.toggleAuto => { s with autoMode := !s.autoMode }
  | Ev.manualToggle o => handleVoiceRecord s o
  | Ev.capStop => { s with recs := stopHead s.recs }
  | Ev.procStart => { s with isProcessing := true }
  | Ev.procDone =>
      if s.autoMode then
        { s with isProcessing := false, pending := some (p.1 + 3) }
      else
        { s with isProcessing := false }
  | Ev.playbackDone => s
  | Ev.fire o =>
      if s.pending = some p.1 then
        { startRec { s with pending := none } o with
            rearms := s.rearms ++ [p.1] }
      else s
  | Ev.cleanup => { s with pending := none, recs := stopAll s.recs }

/-- Run a timed event trace from the initial component state. -/
def run (evs : List (Nat × Ev)) : VCState := evs.foldl step initState

/-- State of the 1 Hz recording timer (lines 537-550): the displayed
elapsed-seconds counter and whether stopRecording has been forced. -/
structure RecTimer where
  time : Nat
  stopped : Bool
deriving DecidableEq, Repr

/-- One tick of the 1 Hz interval: `prev >= 60` forces stopRecording (which
clears the interval, so a stopped timer no longer changes) and pins the
counter at 60; otherwise the counter advances by one. -/
def tickTimer (s : RecTimer) : RecTimer :=
  if s.stopped then s
  else if 60 ≤ s.time then { time := 60, stopped := true }
  else { time := s.time + 1, stopped := false }

/-- Timer state when a recording starts: counter reset to 0. -/
def timerInit : RecTimer := { time := 0, stopped := false }

/-- Terminal event of playAudioFromBase64: playback ended; base64 decoding
threw inside the executor; audio.play() rejected; or the error event
fired. -/
inductive PlayOutcome where
  | ended
  | decodeFails
  | playCallRejects
  | errorEvent
deriving DecidableEq, Repr

/-- Outcome of the synthesis fetch inside synthesizeAndPlayVoice: the
fetch threw; the response was not OK; the response was OK without
audio_data; or the response was OK with audio_data, in which case the
playback outcome decides the rest. -/
inductive SynthOutcome where
  | fetchThrows
  | respNotOk
  | okNoAudio
  | okAudio (p : PlayOutcome)
deriving DecidableEq, Repr

/-- How a returned Promise settles. -/
inductive PromiseResult where
  | resolved
  | rejected
deriving DecidableEq, Repr

/-- playAudioFromBase64 (main component, lines 517-548): resolves only on
the ended event; rejects when decoding throws, when play() rejects, and on
the error event. -/
def playAudioFromBase64 : PlayOutcome → PromiseResult
  | PlayOutcome.ended => PromiseResult.resolved
  | PlayOutcome.decodeFails => PromiseResult.rejected
  | PlayOutcome.playCallRejects => PromiseResult.rejected
  | PlayOutcome.errorEvent => PromiseResult.rejected

/-- synthesizeAndPlayVoice (main component, lines 412-432).  Early resolve
when voice is disabled or no session is active.  The awaited fetch and
json() are inside try, so a throw there is caught and the function
resolves.  A non-OK response and a missing audio_data fall through to
`return Promise.resolve()`.  When audio_data is present the source does
`return playAudioFromBase64(...)` with no await, so the async function
adopts that promise as-is: a playback rejection happens after the return
and is NOT routed through the catch block — the caller observes the
rejection. -/
def synthesizeAndPlayVoice (voiceEnabled sessionActive : Bool)
    (o : SynthOutcome) : PromiseResult :=
  if !voiceEnabled || !sessionActive then PromiseResult.resolved
  else
    match o with
    | SynthOutcome.fetchThrows => PromiseResult.resolved
    | SynthOutcome.respNotOk => PromiseResult.resolved
    | SynthOutcome.okNoAudio => PromiseResult.resolved
    | SynthOutcome.okAudio p => playAudioFromBase64 p

/-- The caller of synthesizeAndPlayVoice chains the auto-listen logic with
`.then(...)` and no rejection handler (main component, lines 495-503), so
the downstream step runs exactly when the promise resolves. -/
def schedulerNotified (r : PromiseResult) : Bool := r == PromiseResult.resolved

/-- A runtime whose isTypeSupported accepts exactly the MP3 and bare-Ogg
candidates. -/
def mp3OggRuntime : String → Bool := fun s => s == fmtMp3 || s == fmtOgg

/-- A runtime that supports no candidate at all. -/
def allFalseRuntime : String → Bool := fun _ => false

/-- A runtime supporting exactly Opus-in-WebM and MP3 (the common case of a
browser without WAV recording support). -/
def webmOpusMp3Runtime : String → Bool := fun s => s == fmtWebmOpus || s == fmtMp3

/-- A runtime supporting exactly WAV. -/
def wavRuntime : String → Bool := fun s => s == fmtWav

/-- A trace with auto-listen enabled in which the re-arm timer, scheduled by
the finally block of processRecording at time 0, fires at time 3 while
assistant playback only completes at time 5. -/
def playbackRaceTrace : List (Nat × Ev) :=
  [(0, Ev.toggleAuto), (0, Ev.procStart), (0, Ev.procDone),
   (3, Ev.fire StartOutcome.success), (5, Ev.playbackDone)]

/-- A trace that never toggles autoMode: a full capture cycle, a playback
completion, a (stale) fire attempt and a manual toggle. -/
def noToggleTrace : List (Nat × Ev) :=
  [(0, Ev.procStart), (0, Ev.procDone), (2, Ev.playbackDone),
   (3, Ev.fire StartOutcome.success), (4, Ev.manualToggle StartOutcome.success)]

/-- The stale-guard overlap trace: auto-listen enabled, a capture cycle
completes at time 0 scheduling the re-arm for time 3, a manual recording
starts at time 1 (inside the 3-second window), and the pending timer fires
at time 3. -/
def staleGuardTrace : List (Nat × Ev) :=
  [(0, Ev.toggleAuto), (0, Ev.procStart), (0, Ev.procDone),
   (1, Ev.manualToggle StartOutcome.success), (3, Ev.fire StartOutcome.success)]

/-- countRecording distributed over cons. -/
theorem countRecording_cons (r : RecStatus) (l : List RecStatus) :
    countRecording (r :: l) =
      countRecording l + (if r = RecStatus.recording then 1 else 0) := by
  simp [countRecording, List.countP_cons]

/-- With autoMode off and no pending timeout, any non-toggle event keeps
autoMode off, schedules nothing and fires no automatic re-arm. -/
theorem step_off (s : VCState) (p : Nat × Ev) (hp : p.2 ≠ Ev.toggleAuto)
    (ha : s.autoMode = false) (hpend : s.pending = none) :
    (step s p).autoMode = false ∧ (step s p).pending = none
    ∧ (step s p).rearms = s.rearms := by
  obtain ⟨t, e⟩ := p
  cases e with
  | toggleAuto => exact absurd rfl hp
  | manualToggle o =>
    simp only [step, handleVoiceRecord]
    split
    · exact ⟨ha, hpend, rfl⟩
    · cases o <;> exact ⟨ha, hpend, rfl⟩
  | capStop => exact ⟨ha, hpend, rfl⟩
  | procStart => exact ⟨ha, hpend, rfl⟩
  | procDone => simp [step, ha, hpend]
  | playbackDone => exact ⟨ha, hpend, rfl⟩
  | fire o => simp [step, ha, hpend]
  | cleanup => exact ⟨ha, rfl, rfl⟩

/-- C5: format negotiation tries the candidates in the fixed order WAV,
Opus-in-WebM, bare WebM, MP3, Opus-in-Ogg, bare Ogg and commits to the
first one the runtime reports as supported (full characterization as a
preference chain); in particular a runtime that supports neither WAV nor
either WebM candidate but does support MP3 — such as one supporting only
MP3 and Ogg — selects MP3 for every RecordingSession. -/
theorem negotiation_order :
    (∀ supported : String → Bool,
      negotiate supported =
        (if supported fmtWav then some fmtWav
         else if supported fmtWebmOpus then some fmtWebmOpus
         else if supported fmtWebm then some fmtWebm
         else if supported fmtMp3 then some fmtMp3
         else if supported fmtOggOpus then some fmtOggOpus
         else if supported fmtOgg then some fmtOgg
         else none))
    ∧ (∀ supported : String → Bool,
        supported fmtWav = false → supported fmtWebmOpus = false →
        supported fmtWebm = false → supported fmtMp3 = true →
        negotiate supported = some fmtMp3) := by
  constructor
  · intro s
    cases h1 : s fmtWav <;> cases h2 : s fmtWebmOpus <;> cases h3 : s fmtWebm <;>
      cases h4 : s fmtMp3 <;> cases h5 : s fmtOggOpus <;> cases h6 : s fmtOgg <;>
      simp [negotiate, formats, List.find?, h1, h2, h3, h4, h5, h6]
  · intro s h1 h2 h3 h4
    simp [negotiate, formats, List.find?, h1, h2, h3, h4]

/-- C5 witness: the runtime supporting exactly MP3 and bare Ogg selects
MP3. -/
theorem negotiation_order_witness :
    mp3OggRuntime fmtWav = false ∧ mp3OggRuntime fmtWebmOpus = false
    ∧ mp3OggRuntime fmtWebm = false ∧ mp3OggRuntime fmtMp3 = true
    ∧ negotiate mp3OggRuntime = some fmtMp3 :=
  ⟨by decide, by decide, by decide, by decide,
   negotiation_order.2 mp3OggRuntime (by decide) (by decide) (by decide) (by decide)⟩

/-- C7: the elapsed-seconds counter of a recording never exceeds 60, and
whenever it holds 60 the very next tick forces the stop transition. -/
theorem recording_cap :
    (∀ n : Nat, (tickTimer^[n] timerInit).time ≤ 60)
    ∧ (∀ s : RecTimer, s.time = 60 → (tickTimer s).stopped = true) := by
  constructor
  · intro n
    induction n with
    | zero => simp [timerInit]
    | succ k ih =>
      rw [Function.iterate_succ_apply']
      unfold tickTimer
      split
      · exact ih
      · split
        · simp
        · simp
          omega
  · intro s h
    unfold tickTimer
    split
    · assumption
    · rw [h]
      simp

/-- C7 witness: after 61 ticks the counter is still at most 60, and the
tick taken at a counter of 60 stops the recording. -/
theorem recording_cap_witness :
    (tickTimer^[61] timerInit).time ≤ 60
    ∧ ({ time := 60, stopped := false } : RecTimer).time = 60
    ∧ (tickTimer { time := 60, stopped := false }).stopped = true :=
  ⟨recording_cap.1 61, rfl,
   recording_cap.2 { time := 60, stopped := false } rfl⟩

/-- C8: when the transcription service responds with the empty string on a
payload that reached it, the conversation receives a fallback result
(isFallback true) carrying exactly the clarification sentence of
listeningFallback. -/
theorem empty_transcription_fallback :
    ∀ (supported : String → Bool) (chunks : List Nat) (am : Bool),
      chunks ≠ [] → 100 ≤ chunks.sum →
      (processRecording supported chunks am (SvcResp.ok "")).forwarded = some listeningFallback
      ∧ (processRecording supported chunks am (SvcResp.ok "")).isFallback = true := by
  intro s chunks am hne hsum
  have h2 : ¬ chunks.sum < 100 := by omega
  have hu : usableTranscription "" = false := by decide
  simp [processRecording, hne, h2, hu]

/-- C8 witness: a 200-byte capture whose transcription comes back empty. -/
theorem empty_transcription_fallback_witness :
    (([200] : List Nat) ≠ []) ∧ 100 ≤ ([200] : List Nat).sum
    ∧ ((processRecording mp3OggRuntime [200] false (SvcResp.ok "")).forwarded = some listeningFallback
       ∧ (processRecording mp3OggRuntime [200] false (SvcResp.ok "")).isFallback = true) :=
  ⟨by decide, by decide,
   empty_transcription_fallback mp3OggRuntime [200] false (by decide) (by decide)⟩

/-- C3 counterexample: a capture assembling to a 50-byte payload (below the
100-byte threshold) never reaches the transcription service, but the
generic catch path DOES forward the hearingTroubleFallback sentence to the
Conversation Consumer, contradicting the no-fallback part of the claim. -/
theorem silent_capture_fallback_cex :
    (processRecording allFalseRuntime [50] false (SvcResp.ok "")).svcCalled = false
    ∧ (processRecording allFalseRuntime [50] false (SvcResp.ok "")).forwarded
        = some hearingTroubleFallback :=
  ⟨rfl, rfl⟩

/-- C3 amended: for every capture whose assembled payload is below the
100-byte threshold the transcription service is never called and the
controller leaves the processing state; when no chunks arrived at all no
message is forwarded, but for a non-empty below-threshold payload the
error-path fallback sentence IS forwarded. -/
theorem silent_capture_skips_service :
    ∀ (supported : String → Bool) (chunks : List Nat) (am : Bool) (svc : SvcResp),
      chunks.sum < 100 →
      (processRecording supported chunks am svc).svcCalled = false
      ∧ (processRecording supported chunks am svc).processingAfter = false
      ∧ (chunks = [] → (processRecording supported chunks am svc).forwarded = none)
      ∧ (chunks ≠ [] → (processRecording supported chunks am svc).forwarded
            = some hearingTroubleFallback) := by
  intro s chunks am svc hsum
  by_cases hne : chunks = []
  · subst hne
    simp [processRecording]
  · simp [processRecording, hne, hsum]

/-- C3 amended witness: the 50-byte capture. -/
theorem silent_capture_skips_service_witness :
    (([50] : List Nat).sum < 100)
    ∧ ((processRecording allFalseRuntime [50] false (SvcResp.ok "")).svcCalled = false
       ∧ (processRecording allFalseRuntime [50] false (SvcResp.ok "")).processingAfter = false
       ∧ (([50] : List Nat) = [] →
            (processRecording allFalseRuntime [50] false (SvcResp.ok "")).forwarded = none)
       ∧ (([50] : List Nat) ≠ [] →
            (processRecording allFalseRuntime [50] false (SvcResp.ok "")).forwarded
              = some hearingTroubleFallback)) :=
  ⟨by decide,
   silent_capture_skips_service allFalseRuntime [50] false (SvcResp.ok "") (by decide)⟩

/-- C6 counterexample: on a runtime supporting exactly Opus-in-WebM and MP3
the recorder negotiates Opus-in-WebM, yet processRecording tags the
uploaded payload as MP3 — the payload handed to the Transcription Client
is NOT tagged with the session's negotiated format. -/
theorem payload_tag_mismatch_cex :
    negotiate webmOpusMp3Runtime = some fmtWebmOpus
    ∧ (processRecording webmOpusMp3Runtime [200] false (SvcResp.ok "hello")).taggedAs
        = some fmtMp3
    ∧ fmtMp3 ≠ fmtWebmOpus := by
  refine ⟨rfl, by decide, by decide⟩

/-- C6 amended: the payload tag is chosen at processing time by a second,
independent probe (WAV if supported, else MP3 if supported, else the WebM
fallback); the tag is always drawn from the fixed candidate list, and it
coincides with the negotiated format whenever the runtime supports WAV,
but in general it may differ from the recorder's negotiated format. -/
theorem payload_tag_policy :
    ∀ (supported : String → Bool) (chunks : List Nat) (am : Bool) (svc : SvcResp),
      chunks ≠ [] →
      (processRecording supported chunks am svc).taggedAs = some (blobTag supported)
      ∧ blobTag supported ∈ formats
      ∧ (supported fmtWav = true →
           blobTag supported = fmtWav ∧ negotiate supported = some fmtWav) := by
  intro s chunks am svc hne
  refine ⟨?_, ?_, ?_⟩
  · by_cases hs : chunks.sum < 100
    · simp [processRecording, hne, hs]
    · cases svc with
      | ok text =>
        by_cases ht : usableTranscription text = true
        · simp [processRecording, hne, hs, ht]
        · simp [processRecording, hne, hs, ht]
      | httpErr st b => simp [processRecording, hne, hs]
      | netThrow m => simp [processRecording, hne, hs]
  · unfold blobTag
    split
    · simp [formats]
    · split
      · simp [formats]
      · simp [formats]
  · intro hwav
    constructor
    · simp [blobTag, hwav]
    · simp [negotiate, formats, List.find?, hwav]

/-- C6 amended witness: a WAV-only runtime, where tag and negotiated format
agree. -/
theorem payload_tag_policy_witness :
    (([200] : List Nat) ≠ [])
    ∧ ((processRecording wavRuntime [200] false (SvcResp.ok "")).taggedAs
          = some (blobTag wavRuntime)
       ∧ blobTag wavRuntime ∈ formats
       ∧ (wavRuntime fmtWav = true →
            blobTag wavRuntime = fmtWav ∧ negotiate wavRuntime = some fmtWav)) :=
  ⟨by decide,
   payload_tag_policy wavRuntime [200] false (SvcResp.ok "") (by decide)⟩

/-- C4 counterexample: with voice enabled and a session active, a synthesis
response carrying audio whose payload is not decodable makes the promise
returned by speak() reject — it rejects observably to its caller. -/
theorem speak_rejects_cex :
    synthesizeAndPlayVoice true true (SynthOutcome.okAudio PlayOutcome.decodeFails)
      = PromiseResult.rejected := rfl

/-- C4 amended: speak() resolves — and the auto-listen continuation chained
with .then is reached — when the synthesis fetch throws, when the response
is not OK, when the payload is empty, and when playback completes; but
when synthesis succeeds and the audio is undecodable, play() rejects, or
the playback errors, the returned promise rejects (the playback promise is
returned from inside try without await, bypassing the catch). -/
theorem speak_outcomes :
    ∀ ve sa : Bool,
      synthesizeAndPlayVoice ve sa SynthOutcome.fetchThrows = PromiseResult.resolved
      ∧ synthesizeAndPlayVoice ve sa SynthOutcome.respNotOk = PromiseResult.resolved
      ∧ synthesizeAndPlayVoice ve sa SynthOutcome.okNoAudio = PromiseResult.resolved
      ∧ synthesizeAndPlayVoice ve sa (SynthOutcome.okAudio PlayOutcome.ended)
          = PromiseResult.resolved
      ∧ schedulerNotified (synthesizeAndPlayVoice ve sa SynthOutcome.fetchThrows) = true
      ∧ (∀ p : PlayOutcome, p ≠ PlayOutcome.ended →
          synthesizeAndPlayVoice true true (SynthOutcome.okAudio p)
            = PromiseResult.rejected) := by
  intro ve sa
  refine ⟨?_, ?_, ?_, ?_, ?_, ?_⟩
  · cases ve <;> cases sa <;> rfl
  · cases ve <;> cases sa <;> rfl
  · cases ve <;> cases sa <;> rfl
  · cases ve <;> cases sa <;> rfl
  · cases ve <;> cases sa <;> rfl
  · intro p hp
    cases p with
    | ended => exact absurd rfl hp
    | decodeFails => rfl
    | playCallRejects => rfl
    | errorEvent => rfl

/-- C4 amended witness: synthesis-fetch failure resolves; an undecodable
payload rejects. -/
theorem speak_outcomes_witness :
    (PlayOutcome.decodeFails ≠ PlayOutcome.ended)
    ∧ synthesizeAndPlayVoice true true SynthOutcome.fetchThrows = PromiseResult.resolved
    ∧ synthesizeAndPlayVoice true true (SynthOutcome.okAudio PlayOutcome.decodeFails)
        = PromiseResult.rejected :=
  ⟨by decide, (speak_outcomes true true).1,
   (speak_outcomes true true).2.2.2.2.2 PlayOutcome.decodeFails (by decide)⟩

/-- C9: the claim — at most one RecordingSession ever RECORDING — is the
evident purpose of the fire-time guard at line 696, but that guard reads
stale render-closure state (isRecording and isProcessing captured before
the processed recording started, hence false), so it cannot see an active
recording.  Evaluating the embedding at the failing input: auto-listen on,
a capture processed at time 0 schedules the re-arm for time 3, a manual
recording starts at time 1, the timer fires at time 3 and starts a second
MediaRecorder while the manual one still records — two recorders record
simultaneously, and nothing in handleVoiceRecord clears the pending
timeout that makes this reachable. -/
theorem overlapping_recordings_at_fire :
    countRecording (run staleGuardTrace).recs = 2
    ∧ (run staleGuardTrace).rearms = [3] := by
  refine ⟨by decide, by decide⟩

/-- C10: a manual arm that fails to start — no live stream, or the recorder
start throwing — leaves the controller with the recording flag down and a
surfaced error, creates no recording capture, and stops no recorder (so no
onstop fires and no transcription request can arise from the attempt). -/
theorem failed_start_resets :
    ∀ (s : VCState) (o : StartOutcome),
      s.isRecording = false → o ≠ StartOutcome.success →
      (handleVoiceRecord s o).isRecording = false
      ∧ (handleVoiceRecord s o).voiceError = true
      ∧ countRecording (handleVoiceRecord s o).recs = countRecording s.recs
      ∧ (handleVoiceRecord s o).recs.countP (fun r => decide (r = RecStatus.stoppedDone))
          = s.recs.countP (fun r => decide (r = RecStatus.stoppedDone)) := by
  intro s o hrec ho
  unfold handleVoiceRecord
  rw [if_neg (by simp [hrec])]
  cases o with
  | success => exact absurd rfl ho
  | failNoStream => exact ⟨rfl, rfl, rfl, rfl⟩
  | failStart =>
    refine ⟨rfl, rfl, ?_, ?_⟩
    · simp [startRec, countRecording_cons]
    · simp [startRec, List.countP_cons]

/-- C10 witness: a failed start from the initial state. -/
theorem failed_start_resets_witness :
    initState.isRecording = false
    ∧ StartOutcome.failNoStream ≠ StartOutcome.success
    ∧ ((handleVoiceRecord initState StartOutcome.failNoStream).isRecording = false
       ∧ (handleVoiceRecord initState StartOutcome.failNoStream).voiceError = true
       ∧ countRecording (handleVoiceRecord initState StartOutcome.failNoStream).recs
           = countRecording initState.recs
       ∧ (handleVoiceRecord initState StartOutcome.failNoStream).recs.countP
             (fun r => decide (r = RecStatus.stoppedDone))
           = initState.recs.countP (fun r => decide (r = RecStatus.stoppedDone))) :=
  ⟨rfl, by decide,
   failed_start_resets initState StartOutcome.failNoStream rfl (by decide)⟩

/-- C2: autoMode starts false, and on every event trace that never toggles
it — whatever captures, playback completions (successful or failed),
timer fires and manual toggles occur — it stays false and no automatic
re-arm ever fires. -/
theorem auto_listen_disabled_no_rearm :
    initState.autoMode = false
    ∧ ∀ evs : List (Nat × Ev), (∀ p ∈ evs, p.2 ≠ Ev.toggleAuto) →
        (run evs).autoMode = false ∧ (run evs).rearms = [] := by
  refine ⟨rfl, ?_⟩
  intro evs h
  have aux : ∀ (l : List (Nat × Ev)) (s : VCState),
      (∀ p ∈ l, p.2 ≠ Ev.toggleAuto) → s.autoMode = false → s.pending = none →
      (l.foldl step s).autoMode = false ∧ (l.foldl step s).rearms = s.rearms := by
    intro l
    induction l with
    | nil => exact fun s _ ha _ => ⟨ha, rfl⟩
    | cons p rest ih =>
      intro s hl ha hpend
      have hp : p.2 ≠ Ev.toggleAuto := hl p (List.mem_cons_self p rest)
      have hs := step_off s p hp ha hpend
      have hrest := ih (step s p) (fun q hq => hl q (List.mem_cons_of_mem p hq)) hs.1 hs.2.1
      rw [List.foldl_cons]
      exact ⟨hrest.1, by rw [hrest.2, hs.2.2]⟩
  have hres := aux evs initState h rfl rfl
  exact ⟨hres.1, hres.2⟩

/-- C2 witness: a capture cycle with a playback completion, a stale timer
fire and a manual toggle, never toggling autoMode. -/
theorem auto_listen_disabled_no_rearm_witness :
    (∀ p ∈ noToggleTrace, p.2 ≠ Ev.toggleAuto)
    ∧ (run noToggleTrace).autoMode = false ∧ (run noToggleTrace).rearms = [] :=
  ⟨by decide, auto_listen_disabled_no_rearm.2 noToggleTrace (by decide)⟩

/-- C1 counterexample: both temporal clauses of the claim fail on the
code.  With auto-listen enabled, processRecording finishes at time 0 and
schedules the re-arm for time 3 while assistant playback only completes at
time 5 — the single automatic re-arm fires at time 3, before playback
completion (3 < 5) and sooner than 3 seconds after it (3 < 5 + 3): the
delay is not anchored to playback completion.  And a manual recording
started at time 1, before the delay elapsed, does not yield zero re-arms:
on staleGuardTrace the re-arm still fires at time 3, because the timer's
guard reads stale render-closure state that cannot see the active
recording. -/
theorem auto_rearm_before_playback_cex :
    ((run playbackRaceTrace).rearms = [3] ∧ (3 : Nat) < 5 ∧ (3 : Nat) < 5 + 3)
    ∧ (run staleGuardTrace).rearms = [3] := by
  refine ⟨⟨by decide, by decide, by decide⟩, by decide⟩

/-- C1 amended: with auto-listen enabled, each completed capture/processing
cycle schedules exactly one re-arm, which fires exactly 3 seconds
(delaySeconds) after processRecording completes — anchored to the end of
capture processing, not to playback completion — a second fire attempt is
a no-op, and a manual recording started before the delay elapses does not
suppress the re-arm: the timer's guard reads the scheduling render's stale
closure state (isRecording and isProcessing captured false), so the re-arm
fires regardless. -/
theorem auto_rearm_cycle :
    ∀ (t u : Nat) (o o2 : StartOutcome), u < t + 3 →
      (run [(0, Ev.toggleAuto), (t, Ev.procStart), (t, Ev.procDone),
            (t + 3, Ev.fire StartOutcome.success)]).rearms = [t + 3]
      ∧ (run [(0, Ev.toggleAuto), (t, Ev.procStart), (t, Ev.procDone),
              (t + 3, Ev.fire StartOutcome.success), (t + 3, Ev.fire o)]).rearms = [t + 3]
      ∧ (run [(0, Ev.toggleAuto), (t, Ev.procStart), (t, Ev.procDone),
              (u, Ev.manualToggle StartOutcome.success),
              (t + 3, Ev.fire o2)]).rearms = [t + 3] := by
  intro t u o o2 _hu
  refine ⟨?_, ?_, ?_⟩ <;>
    simp [run, step, handleVoiceRecord, startRec, initState]

/-- C1 amended witness: the cycle scheduled at time 0; in the third
scenario a manual start at time 1 precedes the fire at time 3, which
re-arms anyway. -/
theorem auto_rearm_cycle_witness :
    ((1 : Nat) < 0 + 3)
    ∧ ((run [(0, Ev.toggleAuto), (0, Ev.procStart), (0, Ev.procDone),
             (0 + 3, Ev.fire StartOutcome.success)]).rearms = [0 + 3]
       ∧ (run [(0, Ev.toggleAuto), (0, Ev.procStart), (0, Ev.procDone),
               (0 + 3, Ev.fire StartOutcome.success),
               (0 + 3, Ev.fire StartOutcome.failStart)]).rearms = [0 + 3]
       ∧ (run [(0, Ev.toggleAuto), (0, Ev.procStart), (0, Ev.procDone),
               (1, Ev.manualToggle StartOutcome.success),
               (0 + 3, Ev.fire StartOutcome.failStart)]).rearms = [0 + 3]) :=
  ⟨by decide,
   auto_rearm_cycle 0 1 StartOutcome.failStart StartOutcome.failStart (by decide)⟩

end Solace
